import Mathlib

/-!
Shallow embedding of the Spacelift Flows core app template.

Source of the embedding:
* `src/blocks/index.ts` / the example block file — the `exampleBlock`
  definition (input schema, `onEvent` handler, declared outputs).
* `src/README.md` (embedded `main.ts`) — the app-level configuration
  schema (`apiKey` required+sensitive, `baseUrl` optional with default).

The host runtime (configuration resolution, input validation, dispatch and
the emission contract) is not part of this repository; those pieces are
modelled from the specification and marked as such in their doc comments.
-/

/-- JSON-ish runtime values flowing through configuration and event
payloads.  `vNull` is JavaScript `null`; JavaScript `undefined` is
represented by `Option.none` at the use sites (absent key in a map). -/
inductive Value where
  | vStr (s : String)
  | vNum (n : Int)
  | vBool (b : Bool)
  | vNull
  | vObj (fields : List (String × Value))
deriving Repr

/-- Primitive field types surfaced in the config / schema declarations
(`type: "string"` etc. in the source). -/
inductive PrimType where
  | string
  | number
  | boolean
deriving Repr, DecidableEq

/-- Does a runtime value have the declared primitive type? -/
def typeMatches : PrimType → Value → Bool
  | .string, .vStr _ => true
  | .number, .vNum _ => true
  | .boolean, .vBool _ => true
  | _, _ => false

/-- Key lookup in a string-keyed map (JavaScript object property access:
`none` plays the role of `undefined`). -/
def lookupVal : List (String × Value) → String → Option Value
  | [], _ => none
  | (k, v) :: rest, key => if k = key then some v else lookupVal rest key

/-- A config-field declaration, as written in `app.config` and in block
input `config` maps: name, description, declared type, `required` flag,
`sensitive` flag and optional default value. -/
structure ConfigFieldSpec where
  name : String
  description : String
  type : PrimType
  required : Bool
  sensitive : Bool := false
  default : Option Value := none

/-- JSON-Schema-like object shape declared on an output (`type: "object"`
with `properties` and `required` lists). -/
structure ObjectSchema where
  properties : List (String × PrimType)
  required : List String

/-- Output declaration of a block: name, description, default-route flag
and declared payload shape. -/
structure OutputDef where
  name : String
  description : String
  default : Bool := false
  type : ObjectSchema

/-- Block declaration (data part): name, description, category, the
per-input config schemas and the declared outputs.  Handlers are embedded
as standalone functions. -/
structure BlockDef where
  name : String
  description : String
  category : String
  inputs : List (String × List (String × ConfigFieldSpec))
  outputs : List (String × OutputDef)

/-- The app-level config schema from `main.ts`: `apiKey` (string, required,
sensitive, no default) and `baseUrl` (string, optional, default
`"https://api.example.com"`). -/
def appConfig : List (String × ConfigFieldSpec) :=
  [("apiKey",
    { name := "API Key"
      description := "Your service API key"
      type := .string
      required := true
      sensitive := true }),
   ("baseUrl",
    { name := "Base URL"
      description := "API base URL"
      type := .string
      required := false
      default := some (.vStr "https://api.example.com") })]

/-- The example block's input config schema: a single required string
parameter `message`. -/
def exampleInputConfig : List (String × ConfigFieldSpec) :=
  [("message",
    { name := "Message"
      description := "The text message to process"
      type := .string
      required := true })]

/-- The payload shape declared on the example block's default output:
object with required string fields `message` and `originalMessage`. -/
def exampleOutputType : ObjectSchema :=
  { properties := [("message", .string), ("originalMessage", .string)]
    required := ["message", "originalMessage"] }

/-- The example block's declaration data (from `exampleBlock`). -/
def exampleBlock : BlockDef :=
  { name := "Example Action"
    description := "A simple example block that processes text input"
    category := "Example"
    inputs := [("default", exampleInputConfig)]
    outputs :=
      [("default",
        { name := "Result"
          description := "The processed message result"
          default := true
          type := exampleOutputType })] }

/-- JavaScript runtime error raised inside a handler.  The only reachable
one in the embedded handler is the `TypeError` from calling `.substring`
on `undefined` (or a non-string). -/
inductive JsError where
  | typeError
deriving Repr, DecidableEq

/-- `v.substring(start, stop)` in JavaScript: throws a `TypeError` when the
receiver is `undefined` or not a string, otherwise yields the character
range `[start, stop)` (clamped at the end of the string). -/
def jsSubstring (v : Option Value) (start stop : Nat) : Except JsError String :=
  match v with
  | some (.vStr s) => .ok (String.mk ((s.data.drop start).take (stop - start)))
  | some _ => .error .typeError
  | none => .error .typeError

/-- Template-literal interpolation `${v}` in JavaScript: `undefined` prints
as `"undefined"`, `null` as `"null"`, strings verbatim, numbers and
booleans via their usual rendering, objects as `"[object Object]"`. -/
def jsTemplate : Option Value → String
  | none => "undefined"
  | some (.vStr s) => s
  | some (.vNum n) => toString n
  | some (.vBool true) => "true"
  | some (.vBool false) => "false"
  | some .vNull => "null"
  | some (.vObj _) => "[object Object]"

/-- An object literal field whose value may be `undefined`: the field is
dropped on serialization, matching how the SDK serializes the payload. -/
def jsObjField (k : String) (v : Option Value) : List (String × Value) :=
  match v with
  | some v => [(k, v)]
  | none => []

/-- One `events.emit` call: the payload, emitted with no explicit output
identifier (`none` targets the block's default output). -/
structure Emission where
  outputId : Option String
  payload : Value

/-- Did the handler run to completion or throw? -/
inductive HandlerOutcome where
  | ok
  | thrown (e : JsError)
deriving Repr, DecidableEq

/-- Result of one handler invocation: the events emitted before the
handler finished (or threw), and its outcome. -/
structure HandlerResult where
  emitted : List Emission
  outcome : HandlerOutcome

/-- The example block's `onEvent` handler, translated statement by
statement: read `message` from the input config and `apiKey` / `baseUrl`
from the app config, build
`"Processed: ${message} (using ${baseUrl} with API key: ${apiKey.substring(0, 8)}...)"`
(the `.substring` call throws when `apiKey` is `undefined`, aborting the
handler before any emission), then emit
`{ message: processedMessage, originalMessage: message }` once. -/
def exampleOnEvent (appCfg inputCfg : List (String × Value)) : HandlerResult :=
  let message := lookupVal inputCfg "message"
  let apiKey := lookupVal appCfg "apiKey"
  let baseUrl := lookupVal appCfg "baseUrl"
  match jsSubstring apiKey 0 8 with
  | .error e => { emitted := [], outcome := .thrown e }
  | .ok keyFirst8 =>
      let processedMessage :=
        "Processed: " ++ jsTemplate message ++ " (using " ++ jsTemplate baseUrl ++
          " with API key: " ++ keyFirst8 ++ "...)"
      { emitted :=
          [{ outputId := none
             payload := .vObj (("message", Value.vStr processedMessage) ::
                               jsObjField "originalMessage" message) }]
        outcome := .ok }

/-- A configuration read (`input.app.config.key`): yields the value and
the configuration state after the access.  Property access is the only
operation the handler performs on the configuration object. -/
def readConfig (cfg : List (String × Value)) (k : String) :
    Option Value × List (String × Value) :=
  (lookupVal cfg k, cfg)

/-- The example block's `onEvent` handler with the resolved app
configuration threaded explicitly through each access, making the
configuration state observable before and after every step. -/
def exampleOnEventSt (appCfg inputCfg : List (String × Value)) :
    HandlerResult × List (String × Value) :=
  let message := lookupVal inputCfg "message"
  let r1 := readConfig appCfg "apiKey"
  let r2 := readConfig r1.2 "baseUrl"
  match jsSubstring r1.1 0 8 with
  | .error e => ({ emitted := [], outcome := .thrown e }, r2.2)
  | .ok keyFirst8 =>
      let processedMessage :=
        "Processed: " ++ jsTemplate message ++ " (using " ++ jsTemplate r2.1 ++
          " with API key: " ++ keyFirst8 ++ "...)"
      ({ emitted :=
           [{ outputId := none
              payload := .vObj (("message", Value.vStr processedMessage) ::
                                jsObjField "originalMessage" message) }]
         outcome := .ok }, r2.2)

/-- Error raised by the host's configuration resolution. -/
inductive ConfigError where
  | missingRequired (field : String)
  | wrongType (field : String)
deriving Repr, DecidableEq

/-- Modelled from the spec: the host's configuration resolution (not part
of this repository).  Walks the declared config schema in order; a field
present in the installer-supplied raw map must match its declared type,
an absent field resolves to its declared default when one exists, and an
absent required field without a default is a fatal configuration error. -/
def resolveConfig (schema : List (String × ConfigFieldSpec))
    (raw : List (String × Value)) : Except ConfigError (List (String × Value)) :=
  match schema with
  | [] => .ok []
  | (k, spec) :: rest =>
    match lookupVal raw k with
    | some v =>
        if typeMatches spec.type v then
          (resolveConfig rest raw).map (fun c => (k, v) :: c)
        else .error (.wrongType k)
    | none =>
        match spec.default with
        | some d => (resolveConfig rest raw).map (fun c => (k, d) :: c)
        | none =>
            if spec.required then .error (.missingRequired k)
            else resolveConfig rest raw

/-- Modelled from the spec: the app starts only when configuration
resolution succeeds; a configuration error is fatal to startup. -/
def appStarts (raw : List (String × Value)) : Bool :=
  match resolveConfig appConfig raw with
  | .ok _ => true
  | .error _ => false

/-- Modelled from the spec: the host's input-parameter validation (not
part of this repository).  Checks the event's raw parameters against an
input's declared config schema before the handler runs; returns the first
offending field name, or `none` when the parameters are valid. -/
def validateInputConfig (schema : List (String × ConfigFieldSpec))
    (raw : List (String × Value)) : Option String :=
  match schema with
  | [] => none
  | (k, spec) :: rest =>
    match lookupVal raw k with
    | some v =>
        if typeMatches spec.type v then validateInputConfig rest raw else some k
    | none =>
        if spec.required then some k else validateInputConfig rest raw

/-- Outcome of dispatching one event to a block input: either the event is
rejected before the handler runs, or the handler's result. -/
inductive InvocationResult where
  | inputValidationError (field : String)
  | completed (r : HandlerResult)

/-- Modelled from the spec: the host's dispatch of an event to the example
block's default input (dispatch is not part of this repository).  The raw
parameters are validated against the input's declared schema; only on
success does the handler execute. -/
def invokeExample (appCfg rawInput : List (String × Value)) : InvocationResult :=
  match validateInputConfig exampleInputConfig rawInput with
  | some f => .inputValidationError f
  | none => .completed (exampleOnEvent appCfg rawInput)

/-- Events emitted by an invocation: zero when the event was rejected
before the handler ran. -/
def emittedOf : InvocationResult → List Emission
  | .inputValidationError _ => []
  | .completed r => r.emitted

/-- Error raised by the host's emission contract. -/
inductive EmitError where
  | undeclaredOutput (oid : String)
  | noDefaultOutput
  | payloadMismatch (oid : String)
deriving Repr, DecidableEq

/-- Lookup of a declared property's type in an object schema. -/
def lookupProp : List (String × PrimType) → String → Option PrimType
  | [], _ => none
  | (k, t) :: rest, key => if k = key then some t else lookupProp rest key

/-- The identifier of a block's output flagged `default`, if any. -/
def defaultOutputId (b : BlockDef) : Option String :=
  (b.outputs.find? (fun p => p.2.default)).map Prod.fst

/-- Modelled from the spec: resolution of the target output identifier of
an `emit` call (host-side, not part of this repository).  An explicit
identifier must be declared among the block's outputs — otherwise the
invocation fails loudly; with no identifier the emission routes to the
block's default output. -/
def checkEmit (b : BlockDef) (outputId : Option String) : Except EmitError String :=
  match outputId with
  | some oid =>
      if (b.outputs.map Prod.fst).contains oid then .ok oid
      else .error (.undeclaredOutput oid)
  | none =>
      match defaultOutputId b with
      | some oid => .ok oid
      | none => .error .noDefaultOutput

/-- Does a payload conform to a declared object shape?  Required fields
must be present, declared fields that are present must match their
declared primitive type, and the payload must be an object. -/
def conformsTo (s : ObjectSchema) (v : Value) : Bool :=
  match v with
  | .vObj fields =>
      s.required.all (fun k => (fields.map Prod.fst).contains k) &&
      fields.all (fun kv =>
        match lookupProp s.properties kv.1 with
        | some t => typeMatches t kv.2
        | none => true)
  | _ => false

/-- Modelled from the spec: the host's emission contract (not part of this
repository).  An emission names a declared output (or, with no identifier,
routes to the block's default output); an undeclared output identifier
fails the invocation loudly regardless of payload, and a payload that
violates the declared output shape is also an error.  Returns the routed
output identifier on success. -/
def routeEmit (b : BlockDef) (e : Emission) : Except EmitError String :=
  match checkEmit b e.outputId with
  | .error err => .error err
  | .ok oid =>
      match (b.outputs.find? (fun p => p.1 = oid)).map Prod.snd with
      | some o => if conformsTo o.type e.payload then .ok oid
                  else .error (.payloadMismatch oid)
      | none => .error (.undeclaredOutput oid)

/-! ## Theorems -/

/-- C1: with `apiKey="secret123"` and `baseUrl` unset, configuration
resolves with `baseUrl="https://api.example.com"`; delivering
`message="hi"` to the example block's default input emits exactly one
event, routed to the default output, whose payload has
`originalMessage="hi"` and whose `message` contains the literal substring
`"Processed: hi"`. -/
theorem c1_end_to_end_processed_hi :
    resolveConfig appConfig [("apiKey", Value.vStr "secret123")] =
      .ok [("apiKey", Value.vStr "secret123"),
           ("baseUrl", Value.vStr "https://api.example.com")] ∧
    emittedOf (invokeExample
        [("apiKey", Value.vStr "secret123"),
         ("baseUrl", Value.vStr "https://api.example.com")]
        [("message", Value.vStr "hi")]) =
      [{ outputId := none
         payload := Value.vObj
           [("message", Value.vStr
              "Processed: hi (using https://api.example.com with API key: secret12...)"),
            ("originalMessage", Value.vStr "hi")] }] ∧
    routeEmit exampleBlock
      { outputId := none
        payload := Value.vObj
          [("message", Value.vStr
             "Processed: hi (using https://api.example.com with API key: secret12...)"),
           ("originalMessage", Value.vStr "hi")] } = .ok "default" ∧
    (∃ pre post,
      "Processed: hi (using https://api.example.com with API key: secret12...)" =
        pre ++ "Processed: hi" ++ post) :=
  ⟨rfl, rfl, rfl,
   ⟨"", " (using https://api.example.com with API key: secret12...)", rfl⟩⟩

/-- C2 counterexample: `apiKey` is declared sensitive, yet with
`apiKey="secret12"` (8 characters) the handler's emitted payload contains
the full unmasked apiKey as a literal substring of its `message` field:
`substring(0, 8)` echoes the whole key when the key is at most 8
characters long. -/
theorem c2_counterexample_short_key_echoed_in_full :
    ((appConfig.find? (fun p => p.1 = "apiKey")).map (fun p => p.2.sensitive)) =
      some true ∧
    (exampleOnEvent
        [("apiKey", Value.vStr "secret12"),
         ("baseUrl", Value.vStr "https://api.example.com")]
        [("message", Value.vStr "hi")]).emitted =
      [{ outputId := none
         payload := Value.vObj
           [("message", Value.vStr
              "Processed: hi (using https://api.example.com with API key: secret12...)"),
            ("originalMessage", Value.vStr "hi")] }] ∧
    (∃ pre post,
      "Processed: hi (using https://api.example.com with API key: secret12...)" =
        pre ++ "secret12" ++ post) :=
  ⟨rfl, rfl,
   ⟨"Processed: hi (using https://api.example.com with API key: ", "...)", rfl⟩⟩

/-- C2 amended: the handler exposes `apiKey` only through its first 8
characters (`substring(0, 8)`): two configurations whose apiKeys agree on
their first 8 characters produce identical handler results, so no more
than 8 characters of the key ever reach an emitted payload — but a key of
length at most 8 is thereby echoed in full, refuting the claim as
stated. -/
theorem c2_amended_payload_depends_only_on_first_eight_key_chars
    (k1 k2 : String) (rest inputCfg : List (String × Value))
    (h : k1.data.take 8 = k2.data.take 8) :
    exampleOnEvent (("apiKey", Value.vStr k1) :: rest) inputCfg =
      exampleOnEvent (("apiKey", Value.vStr k2) :: rest) inputCfg := by
  simp [exampleOnEvent, lookupVal, jsSubstring, h]

/-- C2 amended, witness: two distinct 10-character keys agreeing on their
first 8 characters yield identical emitted events. -/
theorem c2_amended_payload_depends_only_on_first_eight_key_chars_witness :
    ("secret123A" : String).data.take 8 = ("secret123B" : String).data.take 8 ∧
    exampleOnEvent
        [("apiKey", Value.vStr "secret123A"),
         ("baseUrl", Value.vStr "https://api.example.com")]
        [("message", Value.vStr "hi")] =
      exampleOnEvent
        [("apiKey", Value.vStr "secret123B"),
         ("baseUrl", Value.vStr "https://api.example.com")]
        [("message", Value.vStr "hi")] :=
  ⟨by decide,
   c2_amended_payload_depends_only_on_first_eight_key_chars
     "secret123A" "secret123B"
     [("baseUrl", Value.vStr "https://api.example.com")]
     [("message", Value.vStr "hi")] (by decide)⟩

/-- C3: an event on the example block's default input whose parameters
omit the required `message` parameter is rejected with an input
validation error naming `message` before the handler executes, and zero
events are emitted. -/
theorem c3_missing_message_rejected_before_handler
    (appCfg raw : List (String × Value))
    (h : lookupVal raw "message" = none) :
    invokeExample appCfg raw = .inputValidationError "message" ∧
    emittedOf (invokeExample appCfg raw) = [] := by
  simp [invokeExample, validateInputConfig, exampleInputConfig, h, emittedOf]

/-- C3 witness: the empty parameter map omits `message` and is rejected
with zero emissions. -/
theorem c3_missing_message_rejected_before_handler_witness :
    lookupVal [] "message" = none ∧
    invokeExample [("apiKey", Value.vStr "secret123")] [] =
      .inputValidationError "message" ∧
    emittedOf (invokeExample [("apiKey", Value.vStr "secret123")] []) = [] :=
  ⟨rfl,
   (c3_missing_message_rejected_before_handler
      [("apiKey", Value.vStr "secret123")] [] rfl).1,
   (c3_missing_message_rejected_before_handler
      [("apiKey", Value.vStr "secret123")] [] rfl).2⟩

/-- C4: omitting the required, default-free `apiKey` field from the
installer-supplied raw values yields a configuration error naming
`apiKey`, and the app does not start. -/
theorem c4_missing_apiKey_fatal_config_error
    (raw : List (String × Value))
    (h : lookupVal raw "apiKey" = none) :
    resolveConfig appConfig raw = .error (.missingRequired "apiKey") ∧
    appStarts raw = false := by
  refine ⟨?_, ?_⟩ <;>
    simp [resolveConfig, appConfig, appStarts, h]

/-- C4 witness: the empty raw map omits `apiKey`; resolution fails and
the app does not start. -/
theorem c4_missing_apiKey_fatal_config_error_witness :
    lookupVal [] "apiKey" = none ∧
    resolveConfig appConfig [] = .error (.missingRequired "apiKey") ∧
    appStarts [] = false :=
  ⟨rfl, (c4_missing_apiKey_fatal_config_error [] rfl).1,
   (c4_missing_apiKey_fatal_config_error [] rfl).2⟩

/-- C5: when the installer omits the optional `baseUrl` field, any
successful resolution binds `baseUrl` to exactly its declared default
`"https://api.example.com"`, and resolving the same raw map again yields
the identical resolved configuration. -/
theorem c5_omitted_baseUrl_resolves_to_default
    (raw cfg : List (String × Value))
    (hbu : lookupVal raw "baseUrl" = none)
    (hok : resolveConfig appConfig raw = .ok cfg) :
    lookupVal cfg "baseUrl" = some (Value.vStr "https://api.example.com") ∧
    ∀ cfg2, resolveConfig appConfig raw = .ok cfg2 → cfg2 = cfg := by
  constructor
  · cases h1 : lookupVal raw "apiKey" with
    | none => simp [resolveConfig, appConfig, h1] at hok
    | some v =>
        by_cases h2 : typeMatches PrimType.string v
        · simp [resolveConfig, appConfig, h1, h2, hbu, Except.map] at hok
          subst hok
          simp [lookupVal]
        · simp [resolveConfig, appConfig, h1, h2] at hok
  · intro cfg2 h2
    have h3 := hok.symm.trans h2
    exact (Except.ok.injEq _ _ ▸ h3).symm ▸ rfl

/-- C5 witness: with only `apiKey` supplied, resolution succeeds, binds
`baseUrl` to the default, and re-resolving yields the same
configuration. -/
theorem c5_omitted_baseUrl_resolves_to_default_witness :
    lookupVal [("apiKey", Value.vStr "k")] "baseUrl" = none ∧
    resolveConfig appConfig [("apiKey", Value.vStr "k")] =
      .ok [("apiKey", Value.vStr "k"),
           ("baseUrl", Value.vStr "https://api.example.com")] ∧
    lookupVal [("apiKey", Value.vStr "k"),
               ("baseUrl", Value.vStr "https://api.example.com")] "baseUrl" =
      some (Value.vStr "https://api.example.com") :=
  ⟨rfl, rfl,
   (c5_omitted_baseUrl_resolves_to_default
      [("apiKey", Value.vStr "k")]
      [("apiKey", Value.vStr "k"),
       ("baseUrl", Value.vStr "https://api.example.com")] rfl rfl).1⟩

/-- C6: for every block, every payload and every output identifier not
declared among the block's outputs, emitting on that identifier fails the
invocation deterministically with an undeclared-output error, regardless
of payload content. -/
theorem c6_undeclared_output_fails_loudly
    (b : BlockDef) (oid : String) (payload : Value)
    (h : (b.outputs.map Prod.fst).contains oid = false) :
    routeEmit b { outputId := some oid, payload := payload } =
      .error (.undeclaredOutput oid) := by
  have hc : checkEmit b (some oid) = .error (.undeclaredOutput oid) := by
    simp only [checkEmit, h, Bool.false_eq_true, if_false]
  simp [routeEmit, hc]

/-- C6 witness: emitting on the undeclared identifier `bogus` of the
example block fails with an undeclared-output error. -/
theorem c6_undeclared_output_fails_loudly_witness :
    (exampleBlock.outputs.map Prod.fst).contains "bogus" = false ∧
    routeEmit exampleBlock { outputId := some "bogus", payload := Value.vNull } =
      .error (.undeclaredOutput "bogus") :=
  ⟨rfl, c6_undeclared_output_fails_loudly exampleBlock "bogus" Value.vNull rfl⟩

/-- C7: for every resolved configuration and every string-valued input
`message`, every payload the example handler emits conforms to the shape
declared on its default output: an object with both required string
fields `message` and `originalMessage`. -/
theorem c7_emitted_payloads_conform_to_output_schema
    (appCfg : List (String × Value)) (msg : String) :
    ((exampleOnEvent appCfg [("message", Value.vStr msg)]).emitted).all
      (fun e => conformsTo exampleOutputType e.payload) = true := by
  unfold exampleOnEvent
  cases h : jsSubstring (lookupVal appCfg "apiKey") 0 8 <;>
    simp [h, conformsTo, exampleOutputType, lookupVal, jsObjField,
          lookupProp, typeMatches]

/-- C9: the example handler never mutates the resolved configuration: for
every configuration and input, threading the configuration state through
each of the handler's accesses returns it unchanged, and the state-
threaded handler computes exactly the same result as the direct one. -/
theorem c9_config_unchanged_by_invocation
    (appCfg inputCfg : List (String × Value)) :
    (exampleOnEventSt appCfg inputCfg).2 = appCfg ∧
    (exampleOnEventSt appCfg inputCfg).1 = exampleOnEvent appCfg inputCfg := by
  unfold exampleOnEventSt exampleOnEvent readConfig
  constructor <;>
    (cases h : jsSubstring (lookupVal appCfg "apiKey") 0 8 <;> simp [h])

/-- C10: when the resolved configuration lacks `apiKey`, the handler
throws a `TypeError` at the `apiKey.substring` call and emits zero
events; conversely, when `apiKey` is a present string, the handler
completes normally and emits exactly one event. -/
theorem c10_missing_apiKey_throws_before_emit
    (appCfg inputCfg : List (String × Value)) :
    (lookupVal appCfg "apiKey" = none →
      exampleOnEvent appCfg inputCfg =
        { emitted := [], outcome := .thrown .typeError }) ∧
    (∀ s, lookupVal appCfg "apiKey" = some (Value.vStr s) →
      (exampleOnEvent appCfg inputCfg).outcome = .ok ∧
      (exampleOnEvent appCfg inputCfg).emitted.length = 1) := by
  constructor
  · intro h
    simp [exampleOnEvent, jsSubstring, h]
  · intro s h
    simp [exampleOnEvent, jsSubstring, h]

/-- C10 witness: with an empty configuration the handler throws with zero
emissions; with `apiKey="secret123"` it completes and emits once. -/
theorem c10_missing_apiKey_throws_before_emit_witness :
    exampleOnEvent [] [] = { emitted := [], outcome := .thrown .typeError } ∧
    (exampleOnEvent [("apiKey", Value.vStr "secret123")] []).outcome = .ok ∧
    (exampleOnEvent [("apiKey", Value.vStr "secret123")] []).emitted.length = 1 :=
  ⟨(c10_missing_apiKey_throws_before_emit [] []).1 rfl,
   ((c10_missing_apiKey_throws_before_emit
       [("apiKey", Value.vStr "secret123")] []).2 "secret123" rfl).1,
   ((c10_missing_apiKey_throws_before_emit
       [("apiKey", Value.vStr "secret123")] []).2 "secret123" rfl).2⟩
